import Mathlib

/-!
Verification of the bigrig configuration model (src/bigrig/config.py).

The embedding models YAML documents as a `Value` inductive, the two JSON
schemas (`CREDENTIALS_SCHEMA`, `CONFIG_SCHEMA`) as boolean validators, the
dataclasses `Credentials`, `Origin`, `Source`, `Target`, `ConfigEntry`,
`RootConfig` and the `Settings` holder as structures, and the loading code
(`from_path`, `from_dict`, `get_instance`, `configure`) as functions over an
explicit `World` (environment variables, file system, requirement parsing
from the external packaging library). Python exceptions become the `Err`
error type of an `Except` result.
-/

namespace Bigrig

/-- Python exception classes that the config module can raise. -/
inductive Err where
  | valueError
  | osError
  | yamlError
  | schemaError
  | keyError
  | typeConfusion
  | invalidRequirement
  | importError
  | attributeError
  | runtimeError
  | typeError
deriving DecidableEq

/-- Failure of `open` + `yaml.safe_load` on a file. -/
inductive FileErr where
  | osErr
  | yamlErr
deriving DecidableEq

/-- A parsed YAML / JSON document (the values `yaml.safe_load` produces). -/
inductive Value where
  | null
  | bool (b : Bool)
  | int (n : Int)
  | str (s : String)
  | arr (xs : List Value)
  | obj (kvs : List (String × Value))

/-- Python `d[k]` / `d.get(k)` on a mapping value; `none` elsewhere. -/
def Value.lookup : Value → String → Option Value
  | .obj kvs, k => kvs.lookup k
  | _, _ => none

def Value.isStr : Value → Bool
  | .str _ => true
  | _ => false

def Value.isObj : Value → Bool
  | .obj _ => true
  | _ => false

/-- `blob.get(k)` when the value under `k` is a string (the only shape the
schemas allow for `credentialsPath`); `none` when the key is absent. -/
def Value.getStrOpt (v : Value) (k : String) : Option String :=
  match v.lookup k with
  | some (.str s) => some s
  | _ => none

mutual

/-- Python `==` on parsed YAML values: mappings compare as dicts
(order-insensitive, same key set, equal values), sequences elementwise. -/
def Value.beq : Value → Value → Bool
  | .null, .null => true
  | .bool a, .bool b => a == b
  | .int a, .int b => a == b
  | .str a, .str b => a == b
  | .arr xs, .arr ys => Value.beqList xs ys
  | .obj xs, .obj ys => xs.length == ys.length && Value.beqObjMem xs ys
  | _, _ => false

def Value.beqList : List Value → List Value → Bool
  | [], [] => true
  | x :: xs, y :: ys => Value.beq x y && Value.beqList xs ys
  | _, _ => false

def Value.beqObjMem : List (String × Value) → List (String × Value) → Bool
  | [], _ => true
  | (k, v) :: rest, ys =>
    (match ys.lookup k with
     | some w => Value.beq v w
     | none => false) && Value.beqObjMem rest ys

end

/-- The regular expression `^[a-z0-9_]+$` of `CONFIG_SCHEMA`s
`patternProperties` on target names. -/
def matchKey (s : String) : Bool :=
  !s.data.isEmpty && s.data.all fun c =>
    (97 ≤ c.toNat && c.toNat ≤ 122) || (48 ≤ c.toNat && c.toNat ≤ 57) || c == '_'

/-- `jsonschema.validate` against `CREDENTIALS_SCHEMA`: an object whose
`username` is a string of length at least 1, whose `password` is a string,
both required, and no additional properties. -/
def validateCredentials : Value → Bool
  | .obj kvs =>
    (match kvs.lookup "username" with
     | some (.str u) => decide (0 < u.length)
     | _ => false) &&
    (match kvs.lookup "password" with
     | some v => v.isStr
     | none => false) &&
    (kvs.all fun kv => kv.1 == "username" || kv.1 == "password")
  | _ => false

/-- The `origin` and `source` definitions of `CONFIG_SCHEMA` (they constrain
the instance identically): object, required string `location`, optional
string `credentialsPath`, no additional properties. -/
def validateOriginSource : Value → Bool
  | .obj kvs =>
    (match kvs.lookup "location" with
     | some v => v.isStr
     | none => false) &&
    (match kvs.lookup "credentialsPath" with
     | some v => v.isStr
     | none => true) &&
    (kvs.all fun kv => kv.1 == "location" || kv.1 == "credentialsPath")
  | _ => false

/-- The `target` definition of `CONFIG_SCHEMA`: object, required object
`variables` and string `location`, optional string `credentialsPath`, no
additional properties. -/
def validateTarget : Value → Bool
  | .obj kvs =>
    (match kvs.lookup "variables" with
     | some v => v.isObj
     | none => false) &&
    (match kvs.lookup "location" with
     | some v => v.isStr
     | none => false) &&
    (match kvs.lookup "credentialsPath" with
     | some v => v.isStr
     | none => true) &&
    (kvs.all fun kv => kv.1 == "variables" || kv.1 == "location" || kv.1 == "credentialsPath")
  | _ => false

/-- The `targets` subschema: an object whose entries under keys matching
`^[a-z0-9_]+$` satisfy the target definition. `additionalProperties` is not
given there, so keys that do not match the pattern are unconstrained. -/
def validateTargets : Value → Bool
  | .obj kvs => kvs.all fun kv => !matchKey kv.1 || validateTarget kv.2
  | _ => false

/-- `jsonschema.validate` against `CONFIG_SCHEMA`: object with required
`origin`, `source`, `targets` conforming to their definitions and no
additional top-level properties. -/
def validateConfig : Value → Bool
  | .obj kvs =>
    (match kvs.lookup "origin" with
     | some v => validateOriginSource v
     | none => false) &&
    (match kvs.lookup "source" with
     | some v => validateOriginSource v
     | none => false) &&
    (match kvs.lookup "targets" with
     | some v => validateTargets v
     | none => false) &&
    (kvs.all fun kv => kv.1 == "origin" || kv.1 == "source" || kv.1 == "targets")
  | _ => false

/-- The `Credentials` dataclass. -/
structure Credentials where
  username : String
  password : String
deriving DecidableEq

/-- The `Origin` dataclass. -/
structure Origin where
  location : String
  credentials : Option Credentials
deriving DecidableEq

/-- The `Source` dataclass. -/
structure Source where
  location : String
  credentials : Option Credentials
deriving DecidableEq

/-- The `Target` dataclass; `variables` is the mapping stored from the
document, `targets` dict order preserved. -/
structure Target where
  location : String
  «variables» : List (String × Value)
  credentials : Option Credentials

/-- The `ConfigEntry` dataclass; `targets` keeps the document insertion
order of the Python dict. -/
structure ConfigEntry where
  origin : Origin
  source : Source
  targets : List (String × Target)

/-- A `packaging.requirements.Requirement`, modelled by its `str` form
(the only aspect of the external class this module observes). -/
structure Requirement where
  str : String
deriving DecidableEq

/-- The `RootConfig` dataclass. -/
structure RootConfig where
  entry : ConfigEntry
  packages : List Requirement

/-- The `Settings` holder: `root` is the instance attribute, absent until
`configure` sets it. -/
structure Settings where
  root : Option RootConfig

/-- `settings = Settings()`: the module-level singleton starts without the
`root` attribute. -/
def initialSettings : Settings := ⟨none⟩

/-- `Credentials.from_path`: falsy path gives `None`; otherwise the file is
opened and YAML-parsed (`ry`), validated against `CREDENTIALS_SCHEMA`, and a
`Credentials` is built from the `username` and `password` entries. The
`typeConfusion` branch is unreachable once validation has passed. -/
def Credentials.from_path (ry : String → Except FileErr Value) :
    Option String → Except Err (Option Credentials)
  | none => .ok none
  | some p =>
    if p = "" then .ok none
    else
      match ry p with
      | .error .yamlErr => .error .yamlError
      | .error .osErr => .error .osError
      | .ok doc =>
        if validateCredentials doc then
          match doc.lookup "username", doc.lookup "password" with
          | some (.str u), some (.str pw) => .ok (some ⟨u, pw⟩)
          | _, _ => .error .typeConfusion
        else .error .schemaError

/-- `Origin.from_dict`: `blob["location"]` plus lazily loaded credentials
from `blob.get("credentialsPath")`. -/
def Origin.from_dict (ry : String → Except FileErr Value) (blob : Value) :
    Except Err Origin :=
  match blob.lookup "location" with
  | some (.str loc) =>
    (match Credentials.from_path ry (blob.getStrOpt "credentialsPath") with
     | .error e => .error e
     | .ok cr => .ok ⟨loc, cr⟩)
  | some _ => .error .typeConfusion
  | none => .error .keyError

/-- `Source.from_dict`, same construction as `Origin.from_dict`. -/
def Source.from_dict (ry : String → Except FileErr Value) (blob : Value) :
    Except Err Source :=
  match blob.lookup "location" with
  | some (.str loc) =>
    (match Credentials.from_path ry (blob.getStrOpt "credentialsPath") with
     | .error e => .error e
     | .ok cr => .ok ⟨loc, cr⟩)
  | some _ => .error .typeConfusion
  | none => .error .keyError

/-- `Target.from_dict`: `blob["location"]`, `blob["variables"]` and lazily
loaded credentials. -/
def Target.from_dict (ry : String → Except FileErr Value) (blob : Value) :
    Except Err Target :=
  match blob.lookup "location", blob.lookup "variables" with
  | some (.str loc), some (.obj vars) =>
    (match Credentials.from_path ry (blob.getStrOpt "credentialsPath") with
     | .error e => .error e
     | .ok cr => .ok ⟨loc, vars, cr⟩)
  | some _, some _ => .error .typeConfusion
  | _, _ => .error .keyError

/-- The dict comprehension of `ConfigEntry.from_dict` over `blob["targets"]`,
in document order, stopping at the first failing entry. -/
def buildTargets (ry : String → Except FileErr Value) :
    List (String × Value) → Except Err (List (String × Target))
  | [] => .ok []
  | (k, tv) :: rest =>
    match Target.from_dict ry tv with
    | .error e => .error e
    | .ok tgt =>
      match buildTargets ry rest with
      | .error e => .error e
      | .ok tail => .ok ((k, tgt) :: tail)

/-- `ConfigEntry.from_dict`: `jsonschema.validate` against `CONFIG_SCHEMA`
first, then construction of origin, source and the targets mapping. The
`keyError` fallback is unreachable once validation has passed. -/
def ConfigEntry.from_dict (ry : String → Except FileErr Value) (blob : Value) :
    Except Err ConfigEntry :=
  if validateConfig blob then
    match blob.lookup "origin", blob.lookup "source", blob.lookup "targets" with
    | some ov, some sv, some (.obj tkvs) =>
      (match Origin.from_dict ry ov with
       | .error e => .error e
       | .ok o =>
         match Source.from_dict ry sv with
         | .error e => .error e
         | .ok s =>
           match buildTargets ry tkvs with
           | .error e => .error e
           | .ok ts => .ok ⟨o, s, ts⟩)
    | _, _, _ => .error .keyError
  else .error .schemaError

/-- The outside world `RootConfig.get_instance` reads: environment
variables, files opened and YAML-parsed (`readYaml`, also used for
credentials files), files read as lines (`readLines`, `none` for an OS
error), and the external `packaging` requirement parser (`parseReq`,
`none` when the line is not a valid requirement specifier). -/
structure World where
  env : String → Option String
  readYaml : String → Except FileErr Value
  readLines : String → Option (List String)
  parseReq : String → Option Requirement

/-- `RootConfig.get_instance`: resolve both environment variables (empty or
missing raise `ValueError`), load and validate the config document, then
parse the package list line by line. Errors raised by `ConfigEntry.from_dict`
(including credential-file failures) propagate; the surrounding handlers
re-raise `yaml.YAMLError` and `OSError` with a new message but the same
class. -/
def RootConfig.get_instance (w : World) : Except Err RootConfig :=
  match w.env "BIGRIG_CONFIG_PATH" with
  | none => .error .valueError
  | some cp =>
    if cp = "" then .error .valueError
    else
      match w.env "BIGRIG_PACKAGES_PATH" with
      | none => .error .valueError
      | some pp =>
        if pp = "" then .error .valueError
        else
          match w.readYaml cp with
          | .error .yamlErr => .error .yamlError
          | .error .osErr => .error .osError
          | .ok doc =>
            match ConfigEntry.from_dict w.readYaml doc with
            | .error e => .error e
            | .ok entry =>
              match w.readLines pp with
              | none => .error .osError
              | some lines =>
                match lines.mapM w.parseReq with
                | none => .error .invalidRequirement
                | some pkgs => .ok ⟨entry, pkgs⟩

/-- The class attributes `Settings.__getattribute__` always finds (methods
and class-level names); `root` is only an annotation, never a class
attribute. -/
def settingsAttrs : List String :=
  ["configure", "__eq__", "__repr__", "__getattribute__", "__init__", "__class__"]

/-- The result of an attribute access on `Settings`. -/
inductive SettingsAttr where
  | attrRoot (r : RootConfig)
  | attrMethod (name : String)

/-- `Settings.__getattribute__`: a missing `root` raises `ImportError`
(the distinct unconfigured-settings error); any other missing attribute
re-raises the plain `AttributeError`. -/
def Settings.getattr (s : Settings) (name : String) : Except Err SettingsAttr :=
  if name = "root" then
    match s.root with
    | some r => .ok (.attrRoot r)
    | none => .error .importError
  else if settingsAttrs.contains name then .ok (.attrMethod name)
  else .error .attributeError

/-- `Settings.configure` as a state transformer: the post-state plus the
raised exception, when any. `root` present raises `RuntimeError`; otherwise
`RootConfig.get_instance` runs and only on success is `root` assigned, so a
failing load leaves the object unchanged. -/
def Settings.configureRun (w : World) (s : Settings) : Settings × Option Err :=
  match s.root with
  | some _ => (s, some .runtimeError)
  | none =>
    match RootConfig.get_instance w with
    | .ok r => (⟨some r⟩, none)
    | .error e => (s, some e)

/-- `Credentials.__repr__`: the password is replaced by three asterisks. -/
def Credentials.reprStr (c : Credentials) : String :=
  "Credentials(username=\x27" ++ c.username ++ "\x27, password=\x27***\x27)"

/-- A Python object appearing as the right operand of `==`: one of the
config-model classes or a value of any other class. -/
inductive PyObject where
  | credentials (c : Credentials)
  | origin (o : Origin)
  | source (s : Source)
  | target (t : Target)
  | configEntry (e : ConfigEntry)
  | rootConfig (r : RootConfig)
  | settingsObj (s : Settings)
  | other (className : String)

def PyObject.isCredentials : PyObject → Bool
  | .credentials _ => true
  | _ => false

def PyObject.isOrigin : PyObject → Bool
  | .origin _ => true
  | _ => false

def PyObject.isSource : PyObject → Bool
  | .source _ => true
  | _ => false

def PyObject.isTarget : PyObject → Bool
  | .target _ => true
  | _ => false

def PyObject.isConfigEntry : PyObject → Bool
  | .configEntry _ => true
  | _ => false

def PyObject.isRootConfig : PyObject → Bool
  | .rootConfig _ => true
  | _ => false

def PyObject.isSettings : PyObject → Bool
  | .settingsObj _ => true
  | _ => false

/-- `Credentials.__eq__`: `TypeError` unless the other operand is a
`Credentials`, else field comparison. -/
def Credentials.eqPy (a : Credentials) : PyObject → Except Err Bool
  | .credentials b => .ok (a.username == b.username && a.password == b.password)
  | _ => .error .typeError

/-- Python `==` between two optional credentials attributes: `None == None`
is `True`; comparing a `Credentials` with `None` (either way round) reaches
`Credentials.__eq__` with a non-instance and raises `TypeError`. -/
def credOptEq : Option Credentials → Option Credentials → Except Err Bool
  | none, none => .ok true
  | some a, some b => a.eqPy (.credentials b)
  | _, _ => .error .typeError

/-- `Origin.__eq__`: `TypeError` on a non-`Origin`; otherwise the `and`
chain compares `location` first (short-circuiting) and then the
credentials. -/
def Origin.eqPy (a : Origin) : PyObject → Except Err Bool
  | .origin b =>
    if a.location = b.location then credOptEq a.credentials b.credentials
    else .ok false
  | _ => .error .typeError

/-- `Source.__eq__`, same shape as `Origin.__eq__`. -/
def Source.eqPy (a : Source) : PyObject → Except Err Bool
  | .source b =>
    if a.location = b.location then credOptEq a.credentials b.credentials
    else .ok false
  | _ => .error .typeError

/-- `Target.__eq__`: location, then the `variables` dicts (Python dict
equality, `Value.beq`), then the credentials. -/
def Target.eqPy (a : Target) : PyObject → Except Err Bool
  | .target b =>
    if a.location = b.location then
      if Value.beq (.obj a.«variables») (.obj b.«variables») then
        credOptEq a.credentials b.credentials
      else .ok false
    else .ok false
  | _ => .error .typeError

/-- Python `==` on the two `targets` dicts: length first, then every entry
of the left dict is looked up on the right and the values compared with
`Target.__eq__`, whose `TypeError` propagates. -/
def targetsDictEqAux : List (String × Target) → List (String × Target) → Except Err Bool
  | [], _ => .ok true
  | (k, v) :: rest, ys =>
    match ys.lookup k with
    | none => .ok false
    | some w =>
      match Target.eqPy v (.target w) with
      | .error e => .error e
      | .ok false => .ok false
      | .ok true => targetsDictEqAux rest ys

def targetsDictEq (xs ys : List (String × Target)) : Except Err Bool :=
  if xs.length = ys.length then targetsDictEqAux xs ys else .ok false

/-- `ConfigEntry.__eq__`: `TypeError` on a non-`ConfigEntry`; otherwise
origin, source and the targets dict, short-circuiting. -/
def ConfigEntry.eqPy (a : ConfigEntry) : PyObject → Except Err Bool
  | .configEntry b =>
    (match Origin.eqPy a.origin (.origin b.origin) with
     | .error e => .error e
     | .ok false => .ok false
     | .ok true =>
       match Source.eqPy a.source (.source b.source) with
       | .error e => .error e
       | .ok false => .ok false
       | .ok true => targetsDictEq a.targets b.targets)
  | _ => .error .typeError

/-- `str()` of an element of `zip_longest(...)`: the fill value `None`
prints as `None`, a requirement prints as its specifier. -/
def strOptReq : Option Requirement → String
  | none => "None"
  | some r => r.str

/-- The `all(str(a) == str(b) for a, b in zip_longest(p1, p2))` comparison
of `RootConfig.__eq__`: positional, padding the shorter list with `None`
(when the left list is exhausted every remaining right element is compared
against the string form of `None`). -/
def pkgsEqPadded : List Requirement → List Requirement → Bool
  | [], ys => ys.all fun y => "None" == y.str
  | x :: xs, [] => (x.str == "None") && pkgsEqPadded xs []
  | x :: xs, y :: ys => (x.str == y.str) && pkgsEqPadded xs ys

/-- `RootConfig.__eq__`: `TypeError` on a non-`RootConfig`; the padded
string comparison of the package lists runs first (short-circuiting `and`),
then `ConfigEntry.__eq__` on the entries. -/
def RootConfig.eqPy (a : RootConfig) : PyObject → Except Err Bool
  | .rootConfig b =>
    if pkgsEqPadded a.packages b.packages then a.entry.eqPy (.configEntry b.entry)
    else .ok false
  | _ => .error .typeError

/-- `Settings.__eq__`: the `isinstance` check runs first (`TypeError`),
then `self.root` and `other.root` are read through `__getattribute__`
(`ImportError` when unconfigured), then compared with
`RootConfig.__eq__`. -/
def Settings.eqPy (s : Settings) : PyObject → Except Err Bool
  | .settingsObj t =>
    (match s.root with
     | none => .error .importError
     | some r1 =>
       match t.root with
       | none => .error .importError
       | some r2 => r1.eqPy (.rootConfig r2))
  | _ => .error .typeError

/-- Structural equality of the `Credentials` fields. -/
def Credentials.fieldsEq (a b : Credentials) : Bool :=
  a.username == b.username && a.password == b.password

/-- Structural equality of two optional credentials fields. -/
def credOptFieldsEq : Option Credentials → Option Credentials → Bool
  | none, none => true
  | some a, some b => a.fieldsEq b
  | _, _ => false

/-- Structural equality of the `Origin` fields. -/
def Origin.fieldsEq (a b : Origin) : Bool :=
  a.location == b.location && credOptFieldsEq a.credentials b.credentials

/-- Structural equality of the `Source` fields. -/
def Source.fieldsEq (a b : Source) : Bool :=
  a.location == b.location && credOptFieldsEq a.credentials b.credentials

/-- Structural equality of the `Target` fields; the `variables` dicts
compare as Python dicts. -/
def Target.fieldsEq (a b : Target) : Bool :=
  a.location == b.location &&
    Value.beq (.obj a.«variables») (.obj b.«variables») &&
    credOptFieldsEq a.credentials b.credentials

/-- Equality of the `targets` dict fields: same size, and every entry of
the left dict present on the right with field-equal targets. -/
def targetsFieldsEq (xs ys : List (String × Target)) : Bool :=
  xs.length == ys.length &&
    xs.all fun kv =>
      match ys.lookup kv.1 with
      | some w => kv.2.fieldsEq w
      | none => false

/-- Structural equality of the `ConfigEntry` fields. -/
def ConfigEntry.fieldsEq (a b : ConfigEntry) : Bool :=
  a.origin.fieldsEq b.origin && a.source.fieldsEq b.source &&
    targetsFieldsEq a.targets b.targets

/-! ### Lemmas on the equality layer -/

theorem credOptEq_ok_true (x y : Option Credentials) :
    credOptEq x y = .ok true ↔ credOptFieldsEq x y = true := by
  rcases x with _ | a <;> rcases y with _ | b <;>
    simp [credOptEq, credOptFieldsEq, Credentials.eqPy, Credentials.fieldsEq]

theorem origin_eqPy_ok_true (a b : Origin) :
    Origin.eqPy a (.origin b) = .ok true ↔ Origin.fieldsEq a b = true := by
  by_cases h : a.location = b.location <;>
    simp [Origin.eqPy, Origin.fieldsEq, h, credOptEq_ok_true]

theorem source_eqPy_ok_true (a b : Source) :
    Source.eqPy a (.source b) = .ok true ↔ Source.fieldsEq a b = true := by
  by_cases h : a.location = b.location <;>
    simp [Source.eqPy, Source.fieldsEq, h, credOptEq_ok_true]

theorem target_eqPy_ok_true (a b : Target) :
    Target.eqPy a (.target b) = .ok true ↔ Target.fieldsEq a b = true := by
  by_cases h : a.location = b.location
  · cases hv : Value.beq (.obj a.«variables») (.obj b.«variables») <;>
      simp [Target.eqPy, Target.fieldsEq, h, hv, credOptEq_ok_true]
  · simp [Target.eqPy, Target.fieldsEq, h]

theorem targetsDictEqAux_ok_true (ys xs : List (String × Target)) :
    targetsDictEqAux xs ys = .ok true ↔
      (xs.all fun kv =>
        match ys.lookup kv.1 with
        | some w => kv.2.fieldsEq w
        | none => false) = true := by
  induction xs with
  | nil => simp [targetsDictEqAux]
  | cons kv rest ih =>
    obtain ⟨k, v⟩ := kv
    simp only [targetsDictEqAux, List.all_cons, Bool.and_eq_true]
    cases hl : ys.lookup k with
    | none => simp
    | some w =>
      cases he : Target.eqPy v (.target w) with
      | error e =>
        have hf : Target.fieldsEq v w = false :=
          Bool.eq_false_iff.mpr fun hf => by
            rw [(target_eqPy_ok_true v w).mpr hf] at he; cases he
        simp [he, hf]
      | ok b =>
        cases b with
        | false =>
          have hf : Target.fieldsEq v w = false :=
            Bool.eq_false_iff.mpr fun hf => by
              rw [(target_eqPy_ok_true v w).mpr hf] at he; cases he
          simp [he, hf]
        | true =>
          have hf : Target.fieldsEq v w = true := (target_eqPy_ok_true v w).mp he
          simp [he, hf, ih, List.all_eq_true]

theorem targetsDictEq_ok_true (xs ys : List (String × Target)) :
    targetsDictEq xs ys = .ok true ↔ targetsFieldsEq xs ys = true := by
  by_cases h : xs.length = ys.length <;>
    simp [targetsDictEq, targetsFieldsEq, h, targetsDictEqAux_ok_true]

theorem configEntry_eqPy_ok_true (a b : ConfigEntry) :
    ConfigEntry.eqPy a (.configEntry b) = .ok true ↔
      ConfigEntry.fieldsEq a b = true := by
  simp only [ConfigEntry.eqPy, ConfigEntry.fieldsEq, Bool.and_eq_true]
  cases ho : Origin.eqPy a.origin (.origin b.origin) with
  | error e =>
    have hf : Origin.fieldsEq a.origin b.origin = false :=
      Bool.eq_false_iff.mpr fun hf => by
        rw [(origin_eqPy_ok_true _ _).mpr hf] at ho; cases ho
    simp [hf]
  | ok b1 =>
    cases b1 with
    | false =>
      have hf : Origin.fieldsEq a.origin b.origin = false :=
        Bool.eq_false_iff.mpr fun hf => by
          rw [(origin_eqPy_ok_true _ _).mpr hf] at ho; cases ho
      simp [hf]
    | true =>
      have hf : Origin.fieldsEq a.origin b.origin = true :=
        (origin_eqPy_ok_true _ _).mp ho
      cases hs : Source.eqPy a.source (.source b.source) with
      | error e =>
        have hg : Source.fieldsEq a.source b.source = false :=
          Bool.eq_false_iff.mpr fun hg => by
            rw [(source_eqPy_ok_true _ _).mpr hg] at hs; cases hs
        simp [hf, hg]
      | ok b2 =>
        cases b2 with
        | false =>
          have hg : Source.fieldsEq a.source b.source = false :=
            Bool.eq_false_iff.mpr fun hg => by
              rw [(source_eqPy_ok_true _ _).mpr hg] at hs; cases hs
          simp [hf, hg]
        | true =>
          have hg : Source.fieldsEq a.source b.source = true :=
            (source_eqPy_ok_true _ _).mp hs
          simp [hf, hg, targetsDictEq_ok_true]

theorem rootConfig_eqPy_ok_true (a b : RootConfig) :
    RootConfig.eqPy a (.rootConfig b) = .ok true ↔
      (pkgsEqPadded a.packages b.packages = true ∧
       ConfigEntry.eqPy a.entry (.configEntry b.entry) = .ok true) := by
  cases h : pkgsEqPadded a.packages b.packages <;> simp [RootConfig.eqPy, h]

theorem allNone_iff (ys : List Requirement) :
    (ys.all fun y => "None" == y.str) = true ↔
      ∀ i : Nat, "None" = strOptReq ys[i]? := by
  induction ys with
  | nil => simp [strOptReq]
  | cons y ys ih =>
    simp only [List.all_cons, Bool.and_eq_true, beq_iff_eq, ih]
    constructor
    · rintro ⟨h1, h2⟩ i
      cases i with
      | zero => simpa [strOptReq] using h1
      | succ n => simpa using h2 n
    · intro h
      refine ⟨?_, fun i => ?_⟩
      · simpa [strOptReq] using h 0
      · simpa using h (i + 1)

theorem pkgsEqPadded_iff (l1 l2 : List Requirement) :
    pkgsEqPadded l1 l2 = true ↔
      ∀ i : Nat, strOptReq l1[i]? = strOptReq l2[i]? := by
  induction l1 generalizing l2 with
  | nil =>
    simp only [pkgsEqPadded, allNone_iff]
    constructor
    · intro h i
      simpa [strOptReq] using h i
    · intro h i
      simpa [strOptReq] using h i
  | cons x xs ih =>
    cases l2 with
    | nil =>
      simp only [pkgsEqPadded, Bool.and_eq_true, beq_iff_eq, ih]
      constructor
      · rintro ⟨h1, h2⟩ i
        cases i with
        | zero => simp [strOptReq, h1]
        | succ n => simpa using h2 n
      · intro h
        refine ⟨?_, fun i => ?_⟩
        · have := h 0; simpa [strOptReq] using this
        · have := h (i + 1); simpa using this
    | cons y ys =>
      simp only [pkgsEqPadded, Bool.and_eq_true, beq_iff_eq, ih]
      constructor
      · rintro ⟨h1, h2⟩ i
        cases i with
        | zero => simp [strOptReq, h1]
        | succ n => simpa using h2 n
      · intro h
        refine ⟨?_, fun i => ?_⟩
        · have := h 0; simpa [strOptReq] using this
        · have := h (i + 1); simpa using this

/-! ### Lemmas on the loading path -/

theorem origin_from_dict_ok_location (ry : String → Except FileErr Value)
    (blob : Value) (o : Origin) (h : Origin.from_dict ry blob = .ok o) :
    blob.lookup "location" = some (.str o.location) := by
  unfold Origin.from_dict at h
  split at h
  · rename_i loc heq
    split at h
    · cases h
    · cases h; exact heq
  · cases h
  · cases h

theorem source_from_dict_ok_location (ry : String → Except FileErr Value)
    (blob : Value) (s : Source) (h : Source.from_dict ry blob = .ok s) :
    blob.lookup "location" = some (.str s.location) := by
  unfold Source.from_dict at h
  split at h
  · rename_i loc heq
    split at h
    · cases h
    · cases h; exact heq
  · cases h
  · cases h

theorem target_from_dict_ok_fields (ry : String → Except FileErr Value)
    (blob : Value) (tgt : Target) (h : Target.from_dict ry blob = .ok tgt) :
    blob.lookup "location" = some (.str tgt.location) ∧
      blob.lookup "variables" = some (.obj tgt.«variables») := by
  unfold Target.from_dict at h
  split at h
  · rename_i loc vars heq1 heq2
    split at h
    · cases h
    · cases h; exact ⟨heq1, heq2⟩
  · cases h
  · cases h

theorem buildTargets_ok_spec (ry : String → Except FileErr Value)
    (kvs : List (String × Value)) (ts : List (String × Target))
    (h : buildTargets ry kvs = .ok ts) :
    ts.length = kvs.length ∧
      ∀ (i : Nat) (kv : String × Value) (tg : String × Target),
        kvs[i]? = some kv → ts[i]? = some tg →
          tg.1 = kv.1 ∧ kv.2.lookup "location" = some (.str tg.2.location) ∧
            kv.2.lookup "variables" = some (.obj tg.2.«variables») := by
  induction kvs generalizing ts with
  | nil =>
    cases h
    exact ⟨rfl, fun i kv tg h1 _ => by simp at h1⟩
  | cons kv rest ih =>
    obtain ⟨k, tv⟩ := kv
    unfold buildTargets at h
    split at h
    · cases h
    · rename_i tgt htgt
      split at h
      · cases h
      · rename_i tail htail
        cases h
        obtain ⟨hlen, hspec⟩ := ih tail htail
        refine ⟨by simp [hlen], ?_⟩
        intro i kv2 tg2 h1 h2
        cases i with
        | zero =>
          simp only [List.getElem?_cons_zero, Option.some.injEq] at h1 h2
          subst h1; subst h2
          exact ⟨rfl, (target_from_dict_ok_fields ry tv tgt htgt).1,
            (target_from_dict_ok_fields ry tv tgt htgt).2⟩
        | succ n =>
          simp only [List.getElem?_cons_succ] at h1 h2
          exact hspec n kv2 tg2 h1 h2

theorem configEntry_from_dict_ok_spec (ry : String → Except FileErr Value)
    (blob : Value) (entry : ConfigEntry)
    (h : ConfigEntry.from_dict ry blob = .ok entry) :
    validateConfig blob = true ∧
      (∃ ov, blob.lookup "origin" = some ov ∧
        ov.lookup "location" = some (.str entry.origin.location)) ∧
      (∃ sv, blob.lookup "source" = some sv ∧
        sv.lookup "location" = some (.str entry.source.location)) ∧
      (∃ tkvs, blob.lookup "targets" = some (.obj tkvs) ∧
        entry.targets.length = tkvs.length ∧
        ∀ (i : Nat) (kv : String × Value) (tg : String × Target),
          tkvs[i]? = some kv → entry.targets[i]? = some tg →
            tg.1 = kv.1 ∧ kv.2.lookup "location" = some (.str tg.2.location) ∧
              kv.2.lookup "variables" = some (.obj tg.2.«variables»)) := by
  unfold ConfigEntry.from_dict at h
  split at h
  · rename_i hv
    split at h
    · rename_i ov sv tkvs hov hsv ht
      split at h
      · cases h
      · rename_i o hod
        split at h
        · cases h
        · rename_i s hsd
          split at h
          · cases h
          · rename_i ts hts
            cases h
            obtain ⟨hlen, hspec⟩ := buildTargets_ok_spec ry tkvs ts hts
            exact ⟨hv,
              ⟨ov, hov, origin_from_dict_ok_location ry ov o hod⟩,
              ⟨sv, hsv, source_from_dict_ok_location ry sv s hsd⟩,
              ⟨tkvs, ht, hlen, hspec⟩⟩
    · cases h
  · cases h

theorem mapM_getElem (f : String → Option Requirement) (l : List String)
    (r : List Requirement) (h : l.mapM f = some r) :
    ∀ i : Nat, r[i]? = (l[i]?).bind f := by
  induction l generalizing r with
  | nil =>
    cases h
    intro i; simp
  | cons a rest ih =>
    rw [List.mapM_cons] at h
    cases hf : f a with
    | none => rw [hf] at h; cases h
    | some b =>
      rw [hf] at h
      cases hm : rest.mapM f with
      | none => rw [hm] at h; cases h
      | some bs =>
        rw [hm] at h
        simp only [Option.bind_eq_bind, Option.bind_some, Option.bind] at h
        cases h
        intro i
        cases i with
        | zero => simp [hf]
        | succ n => simpa using ih bs hm n

theorem credentials_from_path_no_import (ry : String → Except FileErr Value)
    (p : Option String) :
    Credentials.from_path ry p ≠ .error .importError := by
  intro h
  rcases p with _ | p
  · cases h
  · simp only [Credentials.from_path] at h
    split at h
    · cases h
    · split at h
      · cases h
      · cases h
      · split at h
        · split at h
          · cases h
          · cases h
        · cases h

theorem origin_from_dict_no_import (ry : String → Except FileErr Value)
    (blob : Value) : Origin.from_dict ry blob ≠ .error .importError := by
  intro h
  unfold Origin.from_dict at h
  split at h
  · split at h
    · rename_i e heq
      cases h
      exact credentials_from_path_no_import ry _ heq
    · cases h
  · cases h
  · cases h

theorem source_from_dict_no_import (ry : String → Except FileErr Value)
    (blob : Value) : Source.from_dict ry blob ≠ .error .importError := by
  intro h
  unfold Source.from_dict at h
  split at h
  · split at h
    · rename_i e heq
      cases h
      exact credentials_from_path_no_import ry _ heq
    · cases h
  · cases h
  · cases h

theorem target_from_dict_no_import (ry : String → Except FileErr Value)
    (blob : Value) : Target.from_dict ry blob ≠ .error .importError := by
  intro h
  unfold Target.from_dict at h
  split at h
  · split at h
    · rename_i e heq
      cases h
      exact credentials_from_path_no_import ry _ heq
    · cases h
  · cases h
  · cases h

theorem buildTargets_no_import (ry : String → Except FileErr Value)
    (kvs : List (String × Value)) :
    buildTargets ry kvs ≠ .error .importError := by
  intro h
  induction kvs with
  | nil => cases h
  | cons kv rest ih =>
    obtain ⟨k, tv⟩ := kv
    unfold buildTargets at h
    split at h
    · rename_i e heq
      cases h
      exact target_from_dict_no_import ry tv heq
    · split at h
      · rename_i e heq
        cases h
        exact ih heq
      · cases h

theorem configEntry_from_dict_no_import (ry : String → Except FileErr Value)
    (blob : Value) : ConfigEntry.from_dict ry blob ≠ .error .importError := by
  intro h
  unfold ConfigEntry.from_dict at h
  split at h
  · split at h
    · split at h
      · rename_i e heq
        cases h
        exact origin_from_dict_no_import ry _ heq
      · split at h
        · rename_i e heq
          cases h
          exact source_from_dict_no_import ry _ heq
        · split at h
          · rename_i e heq
            cases h
            exact buildTargets_no_import ry _ heq
          · cases h
    · cases h
  · cases h

theorem get_instance_no_import (w : World) :
    RootConfig.get_instance w ≠ .error .importError := by
  intro h
  unfold RootConfig.get_instance at h
  split at h
  · cases h
  · split at h
    · cases h
    · split at h
      · cases h
      · split at h
        · cases h
        · split at h
          · cases h
          · cases h
          · split at h
            · rename_i e heq
              cases h
              exact configEntry_from_dict_no_import w.readYaml _ heq
            · split at h
              · cases h
              · split at h
                · cases h
                · cases h

/-! ### Concrete objects for witnesses and counterexamples -/

/-- A config entry with no credentials and no targets. -/
def entryE : ConfigEntry := ⟨⟨"o", none⟩, ⟨"s", none⟩, []⟩

/-- A world with no environment variables and no readable files. -/
def wEmpty : World :=
  ⟨fun _ => none, fun _ => .error .osErr, fun _ => none, fun _ => none⟩

/-- A world whose environment is set but whose config file is not YAML. -/
def wBadYaml : World :=
  ⟨fun k => if k = "BIGRIG_CONFIG_PATH" then some "cfg.yaml"
    else if k = "BIGRIG_PACKAGES_PATH" then some "pkgs.txt" else none,
   fun _ => .error .yamlErr, fun _ => none, fun _ => none⟩

/-- A conforming credentials document. -/
def credDoc : Value := .obj [("username", .str "alice"), ("password", .str "pw")]

/-- A file system holding only `credDoc` at `cred.yaml`. -/
def ryCred : String → Except FileErr Value :=
  fun q => if q = "cred.yaml" then .ok credDoc else .error .osErr

/-! ### Claim theorems -/

/-- C3: the `Settings` object starts unconfigured; the first successful
`configure()` call sets `root`, and every `configure()` call on an
already-configured object raises `RuntimeError` without touching the
state. -/
theorem configure_exactly_once :
    initialSettings.root = none ∧
    (∀ (w : World) (r : RootConfig), RootConfig.get_instance w = .ok r →
      Settings.configureRun w initialSettings = (⟨some r⟩, none)) ∧
    (∀ (w : World) (s : Settings) (r : RootConfig), s.root = some r →
      Settings.configureRun w s = (s, some .runtimeError)) := by
  refine ⟨rfl, ?_, ?_⟩
  · intro w r h
    simp [Settings.configureRun, initialSettings, h]
  · intro w s r h
    simp [Settings.configureRun, h]

theorem configure_exactly_once_witness :
    Settings.configureRun wEmpty ⟨some ⟨entryE, []⟩⟩ =
      (⟨some ⟨entryE, []⟩⟩, some .runtimeError) :=
  configure_exactly_once.2.2 wEmpty ⟨some ⟨entryE, []⟩⟩ ⟨entryE, []⟩ rfl

/-- C4: reading `root` on an unconfigured `Settings` raises `ImportError`,
which differs from the `AttributeError` of any other missing attribute and
from every exception a failing `configure()` can raise; the error is simply
propagated. -/
theorem unconfigured_access_distinct_error :
    Settings.getattr initialSettings "root" = .error .importError ∧
    (∀ (s : Settings) (name : String), name ≠ "root" →
      settingsAttrs.contains name = false →
      Settings.getattr s name = .error .attributeError) ∧
    Err.importError ≠ Err.attributeError ∧
    (∀ (w : World) (s : Settings),
      (Settings.configureRun w s).2 ≠ some Err.importError) := by
  refine ⟨rfl, ?_, by decide, ?_⟩
  · intro s name h1 h2
    have h2m : name ∉ settingsAttrs := by simpa using h2
    simp [Settings.getattr, h1, h2m]
  · intro w s
    unfold Settings.configureRun
    cases s.root with
    | some r => simp
    | none =>
      cases hg : RootConfig.get_instance w with
      | ok r => simp
      | error e =>
        intro hc
        injection hc with hc
        rw [hc] at hg
        exact get_instance_no_import w hg

theorem unconfigured_access_distinct_error_witness :
    Settings.getattr ⟨none⟩ "flavor" = .error .attributeError :=
  unconfigured_access_distinct_error.2.1 ⟨none⟩ "flavor" (by decide) (by decide)

/-- C9: a failing load leaves `Settings` unconfigured: the exception of
`RootConfig.get_instance` is re-raised with the state unchanged, `root`
access still raises `ImportError`, and a later `configure()` against a
well-formed world succeeds instead of raising the repeat-configuration
error. -/
theorem configure_failure_atomic (w : World) (s : Settings) (e : Err)
    (hs : s.root = none) (hfail : RootConfig.get_instance w = .error e) :
    Settings.configureRun w s = (s, some e) ∧
    Settings.getattr s "root" = .error .importError ∧
    (∀ (w2 : World) (r : RootConfig), RootConfig.get_instance w2 = .ok r →
      Settings.configureRun w2 s = (⟨some r⟩, none)) := by
  refine ⟨?_, ?_, ?_⟩
  · simp [Settings.configureRun, hs, hfail]
  · simp [Settings.getattr, hs]
  · intro w2 r h
    simp [Settings.configureRun, hs, h]

theorem configure_failure_atomic_witness :
    Settings.configureRun wEmpty initialSettings =
      (initialSettings, some .valueError) :=
  (configure_failure_atomic wEmpty initialSettings .valueError rfl rfl).1

/-- C8: the display form of `Credentials` prints the username and replaces
the password by `***`; it does not depend on the password, so equal
usernames give identical reprs. -/
theorem credentials_repr_redacted (c1 c2 : Credentials)
    (h : c1.username = c2.username) :
    Credentials.reprStr c1 =
      "Credentials(username=\x27" ++ c1.username ++ "\x27, password=\x27***\x27)" ∧
    Credentials.reprStr c1 = Credentials.reprStr c2 :=
  ⟨rfl, by simp [Credentials.reprStr, h]⟩

theorem credentials_repr_redacted_witness :
    Credentials.reprStr ⟨"alice", "hunter2"⟩ =
      Credentials.reprStr ⟨"alice", "swordfish"⟩ :=
  (credentials_repr_redacted ⟨"alice", "hunter2"⟩ ⟨"alice", "swordfish"⟩ rfl).2

/-- C2: malformed YAML raises the malformed-YAML error; a document that
fails `CONFIG_SCHEMA` raises the schema-violation error from
`ConfigEntry.from_dict` before any construction, for any file system; a
document missing a required key, or with an unexpected top-level key, fails
validation. -/
theorem invalid_config_load_fails (w : World) (cp pp : String)
    (hcp : w.env "BIGRIG_CONFIG_PATH" = some cp) (hcp0 : cp ≠ "")
    (hpp : w.env "BIGRIG_PACKAGES_PATH" = some pp) (hpp0 : pp ≠ "") :
    (w.readYaml cp = .error .yamlErr →
      RootConfig.get_instance w = .error .yamlError) ∧
    (∀ doc : Value, w.readYaml cp = .ok doc → validateConfig doc = false →
      RootConfig.get_instance w = .error .schemaError) ∧
    (∀ (ry : String → Except FileErr Value) (doc : Value),
      validateConfig doc = false →
      ConfigEntry.from_dict ry doc = .error .schemaError) ∧
    (∀ kvs : List (String × Value), List.lookup "origin" kvs = none →
      validateConfig (.obj kvs) = false) ∧
    (∀ (kvs : List (String × Value)) (k : String) (v : Value), (k, v) ∈ kvs →
      k ≠ "origin" → k ≠ "source" → k ≠ "targets" →
      validateConfig (.obj kvs) = false) := by
  refine ⟨?_, ?_, ?_, ?_, ?_⟩
  · intro hy
    simp [RootConfig.get_instance, hcp, hcp0, hpp, hpp0, hy]
  · intro doc hy hv
    simp [RootConfig.get_instance, hcp, hcp0, hpp, hpp0, hy,
      ConfigEntry.from_dict, hv]
  · intro ry doc hv
    simp [ConfigEntry.from_dict, hv]
  · intro kvs h
    simp [validateConfig, h]
  · intro kvs k v hmem h1 h2 h3
    have hall : (kvs.all fun kv =>
        kv.1 == "origin" || kv.1 == "source" || kv.1 == "targets") = false := by
      rw [Bool.eq_false_iff]
      intro hall
      rw [List.all_eq_true] at hall
      have := hall (k, v) hmem
      simp [h1, h2, h3] at this
    simp [validateConfig, hall]

theorem invalid_config_load_fails_witness :
    RootConfig.get_instance wBadYaml = .error .yamlError :=
  (invalid_config_load_fails wBadYaml "cfg.yaml" "pkgs.txt"
    rfl (by decide) rfl (by decide)).1 rfl

/-- C6: `Credentials.from_path` validates the document against
`CREDENTIALS_SCHEMA` before building a value: any non-conforming document
(missing `username`, empty `username`, non-string `password`, additional
key) raises the schema-violation error, and a conforming document yields
exactly its `username` and `password`. -/
theorem credentials_schema_enforced (ry : String → Except FileErr Value)
    (p : String) (doc : Value) (hp : p ≠ "") (hr : ry p = .ok doc) :
    (validateCredentials doc = false →
      Credentials.from_path ry (some p) = .error .schemaError) ∧
    (∀ u pw : String, doc.lookup "username" = some (.str u) →
      doc.lookup "password" = some (.str pw) → validateCredentials doc = true →
      Credentials.from_path ry (some p) = .ok (some ⟨u, pw⟩)) ∧
    (doc.lookup "username" = none → validateCredentials doc = false) ∧
    (doc.lookup "username" = some (.str "") → validateCredentials doc = false) ∧
    (∀ v : Value, doc.lookup "password" = some v → v.isStr = false →
      validateCredentials doc = false) ∧
    (∀ (kvs : List (String × Value)) (k : String) (v : Value), doc = .obj kvs →
      (k, v) ∈ kvs → k ≠ "username" → k ≠ "password" →
      validateCredentials doc = false) := by
  refine ⟨?_, ?_, ?_, ?_, ?_, ?_⟩
  · intro hv
    simp [Credentials.from_path, hp, hr, hv]
  · intro u pw hu hpw hv
    simp [Credentials.from_path, hp, hr, hv, hu, hpw]
  · intro h
    cases doc with
    | obj kvs =>
      simp only [Value.lookup] at h
      simp [validateCredentials, h]
    | null => rfl
    | bool b => rfl
    | int n => rfl
    | str s2 => rfl
    | arr xs => rfl
  · intro h
    cases doc with
    | obj kvs =>
      simp only [Value.lookup] at h
      simp [validateCredentials, h]
    | null => simp [Value.lookup] at h
    | bool b => simp [Value.lookup] at h
    | int n => simp [Value.lookup] at h
    | str s2 => simp [Value.lookup] at h
    | arr xs => simp [Value.lookup] at h
  · intro v h hs
    cases doc with
    | obj kvs =>
      simp only [Value.lookup] at h
      simp [validateCredentials, h, hs]
    | null => simp [Value.lookup] at h
    | bool b => simp [Value.lookup] at h
    | int n => simp [Value.lookup] at h
    | str s2 => simp [Value.lookup] at h
    | arr xs => simp [Value.lookup] at h
  · intro kvs k v hdoc hmem h1 h2
    subst hdoc
    have hall : (kvs.all fun kv =>
        kv.1 == "username" || kv.1 == "password") = false := by
      rw [Bool.eq_false_iff]
      intro hall
      rw [List.all_eq_true] at hall
      have := hall (k, v) hmem
      simp [h1, h2] at this
    simp [validateCredentials, hall]

theorem credentials_schema_enforced_witness :
    Credentials.from_path ryCred (some "cred.yaml") = .ok (some ⟨"alice", "pw"⟩) :=
  (credentials_schema_enforced ryCred "cred.yaml" credDoc (by decide) rfl).2.1
    "alice" "pw" rfl rfl rfl

/-- A valid configuration document with one target. -/
def cfgDoc : Value := .obj
  [("origin", .obj [("location", .str "http://pypi")]),
   ("source", .obj [("location", .str "http://src")]),
   ("targets", .obj [("co7_37", .obj
     [("variables", .obj [("pythonver", .str "3.7")]),
      ("location", .str "./br/co7_37/")])])]

/-- The config entry `cfgDoc` loads to. -/
def cfgEntry : ConfigEntry :=
  ⟨⟨"http://pypi", none⟩, ⟨"http://src", none⟩,
   [("co7_37", ⟨"./br/co7_37/", [("pythonver", .str "3.7")], none⟩)]⟩

/-- A world holding `cfgDoc` and a two-line package list. -/
def wGood : World :=
  ⟨fun k => if k = "BIGRIG_CONFIG_PATH" then some "cfg.yaml"
     else if k = "BIGRIG_PACKAGES_PATH" then some "pkgs.txt" else none,
   fun q => if q = "cfg.yaml" then .ok cfgDoc else .error .osErr,
   fun q => if q = "pkgs.txt" then some ["numpy", "requests"] else none,
   fun sp => some ⟨sp⟩⟩

/-- C1: configuring from a config document the loader accepts and a package
list yields settings whose root matches the source files: the document
validates, the origin and source locations and every target entry (key,
location, variables, in document order) equal the document values, and the
packages are the file lines parsed one per line in file order. -/
theorem configure_valid_config_matches_sources (w : World) (cp pp : String)
    (doc : Value) (entry : ConfigEntry) (lines : List String)
    (pkgs : List Requirement)
    (hcp : w.env "BIGRIG_CONFIG_PATH" = some cp) (hcp0 : cp ≠ "")
    (hpp : w.env "BIGRIG_PACKAGES_PATH" = some pp) (hpp0 : pp ≠ "")
    (hy : w.readYaml cp = .ok doc)
    (hfd : ConfigEntry.from_dict w.readYaml doc = .ok entry)
    (hl : w.readLines pp = some lines)
    (hparse : lines.mapM w.parseReq = some pkgs) :
    Settings.configureRun w initialSettings = (⟨some ⟨entry, pkgs⟩⟩, none) ∧
    validateConfig doc = true ∧
    (∃ ov, doc.lookup "origin" = some ov ∧
      ov.lookup "location" = some (.str entry.origin.location)) ∧
    (∃ sv, doc.lookup "source" = some sv ∧
      sv.lookup "location" = some (.str entry.source.location)) ∧
    (∃ tkvs, doc.lookup "targets" = some (.obj tkvs) ∧
      entry.targets.length = tkvs.length ∧
      ∀ (i : Nat) (kv : String × Value) (tg : String × Target),
        tkvs[i]? = some kv → entry.targets[i]? = some tg →
          tg.1 = kv.1 ∧ kv.2.lookup "location" = some (.str tg.2.location) ∧
            kv.2.lookup "variables" = some (.obj tg.2.«variables»)) ∧
    (∀ i : Nat, pkgs[i]? = (lines[i]?).bind w.parseReq) := by
  obtain ⟨hv, ho, hs, ht⟩ := configEntry_from_dict_ok_spec w.readYaml doc entry hfd
  refine ⟨?_, hv, ho, hs, ht, mapM_getElem w.parseReq lines pkgs hparse⟩
  have hget : RootConfig.get_instance w = .ok ⟨entry, pkgs⟩ := by
    have hparse2 := hparse
    simp only [List.mapM] at hparse2
    simp [RootConfig.get_instance, hcp, hcp0, hpp, hpp0, hy, hfd, hl, hparse2]
  simp [Settings.configureRun, initialSettings, hget]

theorem configure_valid_config_matches_sources_witness :
    Settings.configureRun wGood initialSettings =
      (⟨some ⟨cfgEntry, [⟨"numpy"⟩, ⟨"requests"⟩]⟩⟩, none) :=
  (configure_valid_config_matches_sources wGood "cfg.yaml" "pkgs.txt" cfgDoc
    cfgEntry ["numpy", "requests"] [⟨"numpy"⟩, ⟨"requests"⟩]
    rfl (by decide) rfl (by decide) rfl rfl rfl rfl).1

/-- C7 counterexample: a document whose targets mapping carries the key
`BAD-KEY`, which does not match `^[a-z0-9_]+$`, still validates against
`CONFIG_SCHEMA` and is accepted by `ConfigEntry.from_dict`: the pattern
does not reject non-matching keys. -/
def badKeyDoc : Value := .obj
  [("origin", .obj [("location", .str "o")]),
   ("source", .obj [("location", .str "s")]),
   ("targets", .obj [("BAD-KEY", .obj
     [("variables", .obj []), ("location", .str "t")])])]

theorem target_key_pattern_counterexample :
    matchKey "BAD-KEY" = false ∧
    validateConfig badKeyDoc = true ∧
    ConfigEntry.from_dict (fun _ => .error .osErr) badKeyDoc =
      .ok ⟨⟨"o", none⟩, ⟨"s", none⟩, [("BAD-KEY", ⟨"t", [], none⟩)]⟩ :=
  ⟨rfl, rfl, rfl⟩

/-- C7 (amended): in a document that validates against `CONFIG_SCHEMA`,
every targets entry whose key matches `^[a-z0-9_]+$` satisfies the target
definition; keys that do not match the pattern are not rejected (the
targets subschema leaves additional properties unconstrained). -/
theorem target_key_pattern_amended (doc : Value) (tkvs : List (String × Value))
    (k : String) (tv : Value) (hv : validateConfig doc = true)
    (ht : doc.lookup "targets" = some (.obj tkvs)) (hmem : (k, tv) ∈ tkvs)
    (hk : matchKey k = true) : validateTarget tv = true := by
  cases doc with
  | obj kvs =>
    simp only [Value.lookup] at ht
    have hv2 : validateTargets (.obj tkvs) = true := by
      simp only [validateConfig] at hv
      rw [ht] at hv
      simp only [Bool.and_eq_true] at hv
      tauto
    simp only [validateTargets, List.all_eq_true] at hv2
    have := hv2 (k, tv) hmem
    simpa [hk] using this
  | null => simp [validateConfig] at hv
  | bool b => simp [validateConfig] at hv
  | int n => simp [validateConfig] at hv
  | str s2 => simp [validateConfig] at hv
  | arr xs => simp [validateConfig] at hv

theorem target_key_pattern_amended_witness :
    validateTarget (.obj [("variables", .obj [("pythonver", .str "3.7")]),
      ("location", .str "./br/co7_37/")]) = true :=
  target_key_pattern_amended cfgDoc
    [("co7_37", .obj [("variables", .obj [("pythonver", .str "3.7")]),
      ("location", .str "./br/co7_37/")])]
    "co7_37"
    (.obj [("variables", .obj [("pythonver", .str "3.7")]),
      ("location", .str "./br/co7_37/")])
    rfl rfl (List.mem_singleton.mpr rfl) rfl

/-- C10: when the two entries compare equal, `RootConfig.__eq__` holds
exactly when at every position the string form of one package list matches
the string form of the other, the shorter list padded with `None` (whose
string form is the literal `None`). -/
theorem rootconfig_eq_padded_strings (r1 r2 : RootConfig)
    (hentry : ConfigEntry.eqPy r1.entry (.configEntry r2.entry) = .ok true) :
    RootConfig.eqPy r1 (.rootConfig r2) = .ok true ↔
      ∀ i : Nat, strOptReq r1.packages[i]? = strOptReq r2.packages[i]? := by
  rw [rootConfig_eqPy_ok_true, pkgsEqPadded_iff]
  simp [hentry]

theorem rootconfig_eq_padded_strings_witness :
    RootConfig.eqPy ⟨entryE, [⟨"None"⟩, ⟨"None"⟩]⟩ (.rootConfig ⟨entryE, []⟩) =
      .ok true :=
  (rootconfig_eq_padded_strings ⟨entryE, [⟨"None"⟩, ⟨"None"⟩]⟩ ⟨entryE, []⟩
      rfl).mpr fun i =>
    match i with
    | 0 => rfl
    | 1 => rfl
    | _ + 2 => rfl

/-- C5 counterexample: `RootConfig.__eq__` is not structural: two values
with field-equal entries but different `packages` fields compare equal,
because a requirement whose string form is the literal `None` matches the
`None` padding of `zip_longest`. -/
theorem structural_eq_counterexample :
    RootConfig.eqPy ⟨entryE, [⟨"None"⟩]⟩ (.rootConfig ⟨entryE, []⟩) = .ok true ∧
    (⟨entryE, [⟨"None"⟩]⟩ : RootConfig).packages ≠
      (⟨entryE, []⟩ : RootConfig).packages :=
  ⟨rfl, by simp⟩

/-- C5 (amended): every `==` raises `TypeError` when the right operand is
not an instance of the left operand class; for `Credentials`, `Origin`,
`Source`, `Target` and `ConfigEntry` the comparison is structural (`True`
exactly when all corresponding fields are equal, dict-valued fields
compared as dicts); `RootConfig` compares entries structurally but package
lists positionally by string form with `None` padding, and `Settings`
compares the two roots by that same `RootConfig` comparison. -/
theorem eq_structural_amended :
    (∀ a b : Credentials,
      Credentials.eqPy a (.credentials b) = .ok (a.fieldsEq b)) ∧
    (∀ (a : Credentials) (o : PyObject), o.isCredentials = false →
      Credentials.eqPy a o = .error .typeError) ∧
    (∀ a b : Origin,
      Origin.eqPy a (.origin b) = .ok true ↔ a.fieldsEq b = true) ∧
    (∀ (a : Origin) (o : PyObject), o.isOrigin = false →
      Origin.eqPy a o = .error .typeError) ∧
    (∀ a b : Source,
      Source.eqPy a (.source b) = .ok true ↔ a.fieldsEq b = true) ∧
    (∀ (a : Source) (o : PyObject), o.isSource = false →
      Source.eqPy a o = .error .typeError) ∧
    (∀ a b : Target,
      Target.eqPy a (.target b) = .ok true ↔ a.fieldsEq b = true) ∧
    (∀ (a : Target) (o : PyObject), o.isTarget = false →
      Target.eqPy a o = .error .typeError) ∧
    (∀ a b : ConfigEntry,
      ConfigEntry.eqPy a (.configEntry b) = .ok true ↔ a.fieldsEq b = true) ∧
    (∀ (a : ConfigEntry) (o : PyObject), o.isConfigEntry = false →
      ConfigEntry.eqPy a o = .error .typeError) ∧
    (∀ a b : RootConfig,
      RootConfig.eqPy a (.rootConfig b) = .ok true ↔
        (pkgsEqPadded a.packages b.packages = true ∧
         ConfigEntry.eqPy a.entry (.configEntry b.entry) = .ok true)) ∧
    (∀ (a : RootConfig) (o : PyObject), o.isRootConfig = false →
      RootConfig.eqPy a o = .error .typeError) ∧
    (∀ r1 r2 : RootConfig,
      Settings.eqPy ⟨some r1⟩ (.settingsObj ⟨some r2⟩) =
        RootConfig.eqPy r1 (.rootConfig r2)) ∧
    (∀ (s : Settings) (o : PyObject), o.isSettings = false →
      Settings.eqPy s o = .error .typeError) := by
  refine ⟨fun a b => rfl, ?_, origin_eqPy_ok_true, ?_, source_eqPy_ok_true, ?_,
    target_eqPy_ok_true, ?_, configEntry_eqPy_ok_true, ?_,
    rootConfig_eqPy_ok_true, ?_, fun r1 r2 => rfl, ?_⟩
  · intro a o ho
    cases o <;> first | rfl | simp [PyObject.isCredentials] at ho
  · intro a o ho
    cases o <;> first | rfl | simp [PyObject.isOrigin] at ho
  · intro a o ho
    cases o <;> first | rfl | simp [PyObject.isSource] at ho
  · intro a o ho
    cases o <;> first | rfl | simp [PyObject.isTarget] at ho
  · intro a o ho
    cases o <;> first | rfl | simp [PyObject.isConfigEntry] at ho
  · intro a o ho
    cases o <;> first | rfl | simp [PyObject.isRootConfig] at ho
  · intro s o ho
    cases o <;> first | rfl | simp [PyObject.isSettings] at ho

theorem eq_structural_amended_witness :
    Credentials.eqPy ⟨"alice", "pw"⟩ (.other "NoneType") = .error .typeError :=
  eq_structural_amended.2.1 ⟨"alice", "pw"⟩ (.other "NoneType") rfl

end Bigrig
